import Mathlib

/-!
Verification development for the `news` repository: a shallow embedding of
its Identity Store (accounts), Content Store (articles) and Submission
Intake (pages/contact) layers, with theorems about the claimed properties.
-/

namespace News

/-! ## Submission Intake (pages app)

`ContactSubmission` fields follow `pages/admin.py` (`list_display`,
`readonly_fields`, `search_fields`) and spec section 3: name, email,
subject, message, created_at (set once), is_read (default false).
The model file itself (`pages/models.py`) is not in the sources. -/

structure ContactSubmission where
  id : Nat
  name : String
  email : String
  subject : String
  message : String
  created_at : Nat
  is_read : Bool
deriving Repr, DecidableEq

/-- The persistent state of the Submission Intake: all stored submissions. -/
abbrev SubmissionState := List ContactSubmission

/-- The `readonly_fields` tuple of `ContactSubmissionAdmin` (pages/admin.py). -/
def contactAdminReadonlyFields : List String :=
  ["name", "email", "subject", "message", "created_at"]

/-- The `actions` list of `ContactSubmissionAdmin` (pages/admin.py):
the only exposed mutating bulk actions. -/
def contactAdminActions : List String :=
  ["mark_as_read", "mark_as_unread"]

/-- `ContactSubmissionAdmin.mark_as_read` (pages/admin.py):
`queryset.update(is_read=True)` over the selected ids; returns the
updated count together with the new state. -/
def mark_as_read (ids : List Nat) (s : SubmissionState) : Nat × SubmissionState :=
  ((s.filter (fun c => decide (c.id ∈ ids))).length,
   s.map (fun c => if c.id ∈ ids then { c with is_read := true } else c))

/-- `ContactSubmissionAdmin.mark_as_unread` (pages/admin.py):
`queryset.update(is_read=False)` over the selected ids. -/
def mark_as_unread (ids : List Nat) (s : SubmissionState) : Nat × SubmissionState :=
  ((s.filter (fun c => decide (c.id ∈ ids))).length,
   s.map (fun c => if c.id ∈ ids then { c with is_read := false } else c))

/-- Fresh id for a newly created submission (no deletion is exposed,
so a length-based id is injective along any reachable history). -/
def freshSubmissionId (s : SubmissionState) : Nat := s.length + 1

/-- Modelled from the spec: `submit(name, email, subject, message)` of the
Submission Intake. `pages/forms.py` (ContactForm) and `pages/models.py` are
not in the sources; per spec section 4.3 every required field must be
non-empty (else ValidationError) and the record is always created with
is_read = false. On error the state is unchanged. -/
def submit (name email subject message : String) (now : Nat) (s : SubmissionState) :
    Except String ContactSubmission × SubmissionState :=
  if name = "" ∨ email = "" ∨ subject = "" ∨ message = "" then
    (Except.error "ValidationError", s)
  else
    let c : ContactSubmission :=
      { id := freshSubmissionId s, name := name, email := email,
        subject := subject, message := message, created_at := now, is_read := false }
    (Except.ok c, s ++ [c])

/-- Modelled from the spec: `listSubmissions(filter: {isRead?, createdAfter?})`
of the Submission Intake (spec section 4.3). -/
def listSubmissions (isRead : Option Bool) (createdAfter : Option Nat)
    (s : SubmissionState) : List ContactSubmission :=
  s.filter (fun c =>
    (match isRead with | none => true | some b => c.is_read == b) &&
    (match createdAfter with | none => true | some t => t < c.created_at))

/-- The fields of a submission other than `is_read`: the ones the spec
declares immutable after creation. -/
def contactFrozen (c : ContactSubmission) : Nat × String × String × String × String × Nat :=
  (c.id, c.name, c.email, c.subject, c.message, c.created_at)

/-! ### Helper lemmas for the submission operations -/

theorem contactFrozen_if (b : Bool) (ids : List Nat) (c : ContactSubmission) :
    contactFrozen (if c.id ∈ ids then { c with is_read := b } else c) = contactFrozen c := by
  split <;> rfl

theorem map_contactFrozen_map (f : ContactSubmission → ContactSubmission)
    (hf : ∀ c, contactFrozen (f c) = contactFrozen c) :
    ∀ s : SubmissionState, (s.map f).map contactFrozen = s.map contactFrozen := by
  intro s
  induction s with
  | nil => rfl
  | cons c t ih => simp [hf, ih]

theorem mem_zip_map (f : ContactSubmission → ContactSubmission) :
    ∀ (s : SubmissionState), ∀ p ∈ s.zip (s.map f), p.2 = f p.1 := by
  intro s
  induction s with
  | nil => intro p hp; simp at hp
  | cons c t ih =>
    intro p hp
    rw [List.map_cons, List.zip_cons_cons, List.mem_cons] at hp
    rcases hp with h | h
    · subst h; rfl
    · exact ih p h

theorem id_if (b : Bool) (ids : List Nat) (c : ContactSubmission) :
    (if c.id ∈ ids then { c with is_read := b } else c).id = c.id := by
  split <;> rfl

/-! ### Claim theorems for the Submission Intake -/

/-- C1: after creation name, email, subject and message are immutable — the
only exposed mutating operations, `mark_as_read` and `mark_as_unread`, change
`is_read` and nothing else (every non-`is_read` field of every stored
submission is preserved, and `is_read` becomes true/false exactly on the
selected ids); moreover each of the four fields is in the admin's
`readonly_fields`. -/
theorem contact_immutability (ids : List Nat) (s : SubmissionState) :
    ((mark_as_read ids s).2).map contactFrozen = s.map contactFrozen ∧
    ((mark_as_unread ids s).2).map contactFrozen = s.map contactFrozen ∧
    (∀ p ∈ s.zip (mark_as_read ids s).2,
      p.2.is_read = (decide (p.1.id ∈ ids) || p.1.is_read) ∧
      contactFrozen p.2 = contactFrozen p.1) ∧
    (∀ p ∈ s.zip (mark_as_unread ids s).2,
      p.2.is_read = (!decide (p.1.id ∈ ids) && p.1.is_read) ∧
      contactFrozen p.2 = contactFrozen p.1) ∧
    "name" ∈ contactAdminReadonlyFields ∧ "email" ∈ contactAdminReadonlyFields ∧
    "subject" ∈ contactAdminReadonlyFields ∧ "message" ∈ contactAdminReadonlyFields := by
  refine ⟨map_contactFrozen_map _ (contactFrozen_if true ids) s,
          map_contactFrozen_map _ (contactFrozen_if false ids) s, ?_, ?_, ?_, ?_, ?_, ?_⟩
  · intro p hp
    have h2 := mem_zip_map _ s p hp
    constructor
    · rw [h2]; by_cases h : p.1.id ∈ ids <;> simp [h]
    · rw [h2]; exact contactFrozen_if true ids p.1
  · intro p hp
    have h2 := mem_zip_map _ s p hp
    constructor
    · rw [h2]; by_cases h : p.1.id ∈ ids <;> simp [h]
    · rw [h2]; exact contactFrozen_if false ids p.1
  all_goals decide

/-- Witness for C1 at a concrete submission and id set. -/
theorem contact_immutability_witness :
    (⟨1, "a", "b", "c", "d", 0, true⟩ : ContactSubmission).is_read
      = (decide ((1 : Nat) ∈ ([1] : List Nat))
          || (⟨1, "a", "b", "c", "d", 0, false⟩ : ContactSubmission).is_read) ∧
    contactFrozen ⟨1, "a", "b", "c", "d", 0, true⟩
      = contactFrozen ⟨1, "a", "b", "c", "d", 0, false⟩ :=
  (contact_immutability [1] [⟨1, "a", "b", "c", "d", 0, false⟩]).2.2.1
    (⟨1, "a", "b", "c", "d", 0, false⟩, ⟨1, "a", "b", "c", "d", 0, true⟩) (by decide)

theorem if_if_same (b b2 : Bool) (ids : List Nat) (c : ContactSubmission) :
    (if (if c.id ∈ ids then { c with is_read := b2 } else c).id ∈ ids then
      { (if c.id ∈ ids then { c with is_read := b2 } else c) with is_read := b }
     else (if c.id ∈ ids then { c with is_read := b2 } else c))
    = (if c.id ∈ ids then { c with is_read := b } else c) := by
  by_cases h : c.id ∈ ids <;> simp [h]

theorem mark_flag_pair (b : Bool) (ids : List Nat) (s : SubmissionState) :
    ((s.map (fun c => if c.id ∈ ids then { c with is_read := b } else c)).filter
        (fun c => decide (c.id ∈ ids))).length
      = (s.filter (fun c => decide (c.id ∈ ids))).length ∧
    (s.map (fun c => if c.id ∈ ids then { c with is_read := b } else c)).map
        (fun c => if c.id ∈ ids then { c with is_read := b } else c)
      = s.map (fun c => if c.id ∈ ids then { c with is_read := b } else c) := by
  induction s with
  | nil => exact ⟨rfl, rfl⟩
  | cons c t ih =>
    constructor
    · by_cases h : c.id ∈ ids <;>
        simp only [List.map_cons, List.filter_cons] <;> simp [h, ih.1]
    · simp only [List.map_cons, if_if_same, List.cons.injEq]
      exact ⟨trivial, ih.2⟩

/-- C10: `mark_as_read` and `mark_as_unread` are idempotent (applying either
twice with the same id set yields the same count and state as applying it
once), and `mark_as_unread` applied after `mark_as_read` with the same id set
leaves is_read = false on every submission in the set, from every starting
state. -/
theorem mark_actions_algebra (ids : List Nat) (s : SubmissionState) :
    mark_as_read ids (mark_as_read ids s).2 = mark_as_read ids s ∧
    mark_as_unread ids (mark_as_unread ids s).2 = mark_as_unread ids s ∧
    ((mark_as_unread ids (mark_as_read ids s).2).2.all
      (fun c => !decide (c.id ∈ ids) || !c.is_read)) = true := by
  refine ⟨?_, ?_, ?_⟩
  · have h := mark_flag_pair true ids s
    unfold mark_as_read
    exact Prod.ext h.1 h.2
  · have h := mark_flag_pair false ids s
    unfold mark_as_unread
    exact Prod.ext h.1 h.2
  · unfold mark_as_read mark_as_unread
    rw [List.map_map, List.all_eq_true]
    intro c hc
    rcases List.mem_map.mp hc with ⟨c0, _, rfl⟩
    by_cases h : c0.id ∈ ids <;> simp [Function.comp, h]

/-- C5: `submit` with an empty message fails with ValidationError and leaves
the stored submissions unchanged (no record is created), whatever the other
fields and the starting state. -/
theorem submit_empty_message (name email subject : String) (now : Nat) (s : SubmissionState) :
    submit name email subject "" now s = (Except.error "ValidationError", s) := by
  unfold submit
  rw [if_pos (Or.inr (Or.inr (Or.inr rfl)))]

/-- C4: every successful `submit` creates the new record with is_read = false
and stores it; and concretely, `submit("Ann","ann@x.com","Hi","Hello")` on an
empty store creates such a submission, `mark_as_read` on the singleton set of
its id returns count 1, and `listSubmissions` filtered to isRead = true then
includes that submission. -/
theorem submit_markRead_flow :
    (∀ (n e su m : String) (now : Nat) (s : SubmissionState)
       (c : ContactSubmission) (s2 : SubmissionState),
       submit n e su m now s = (Except.ok c, s2) →
       c.is_read = false ∧ c ∈ s2) ∧
    submit "Ann" "ann@x.com" "Hi" "Hello" 0 []
      = (Except.ok ⟨1, "Ann", "ann@x.com", "Hi", "Hello", 0, false⟩,
         [⟨1, "Ann", "ann@x.com", "Hi", "Hello", 0, false⟩]) ∧
    mark_as_read [1] [⟨1, "Ann", "ann@x.com", "Hi", "Hello", 0, false⟩]
      = (1, [⟨1, "Ann", "ann@x.com", "Hi", "Hello", 0, true⟩]) ∧
    (⟨1, "Ann", "ann@x.com", "Hi", "Hello", 0, true⟩ : ContactSubmission) ∈
      listSubmissions (some true) none [⟨1, "Ann", "ann@x.com", "Hi", "Hello", 0, true⟩] := by
  refine ⟨?_, by rfl, by decide, by decide⟩
  intro n e su m now s c s2 h
  unfold submit at h
  split at h
  · simp at h
  · rw [Prod.mk.injEq] at h
    obtain ⟨h1, h2⟩ := h
    obtain rfl := Except.ok.inj h1
    subst h2
    exact ⟨rfl, List.mem_append.mpr (Or.inr (List.mem_singleton.mpr rfl))⟩

/-- Witness for C4 at the concrete Ann submission. -/
theorem submit_markRead_flow_witness :
    (⟨1, "Ann", "ann@x.com", "Hi", "Hello", 0, false⟩ : ContactSubmission).is_read = false ∧
    (⟨1, "Ann", "ann@x.com", "Hi", "Hello", 0, false⟩ : ContactSubmission) ∈
      ([⟨1, "Ann", "ann@x.com", "Hi", "Hello", 0, false⟩] : SubmissionState) :=
  submit_markRead_flow.1 "Ann" "ann@x.com" "Hi" "Hello" 0 []
    ⟨1, "Ann", "ann@x.com", "Hi", "Hello", 0, false⟩
    [⟨1, "Ann", "ann@x.com", "Hi", "Hello", 0, false⟩] (by rfl)

/-! ## Identity Store (accounts app)

`CustomUser` (accounts/models.py) extends Django's `AbstractUser` — username,
first_name, last_name, email, password, is_active, is_staff, is_superuser —
with bio, profile_image and the four social-link fields. There is no age
field on the model. -/

structure CustomUser where
  id : Nat
  username : String
  email : String
  password : String
  first_name : String
  last_name : String
  is_active : Bool
  is_staff : Bool
  is_superuser : Bool
  bio : Option String
  profile_image : Option String
  x_link : Option String
  linkedin_link : Option String
  github_link : Option String
  website_link : Option String
deriving Repr, DecidableEq

/-- The persistent state of the Identity Store: all stored users. -/
abbrev UserState := List CustomUser

/-- Whether a username is already taken in the store. -/
def usernameTaken (username : String) (s : UserState) : Bool :=
  s.any (fun u => u.username == username)

/-- Fresh id for a newly created user. -/
def freshUserId (s : UserState) : Nat := s.length + 1

/-- Modelled from the spec: `createUser` — Django's `UserManager.create_user`
is framework code, not in the sources; behaviour per spec section 4.1 and the
assertions of accounts/tests.py `test_create_user`: fails with
ValidationError when the username is taken, otherwise stores a user with the
given username and email, active = true, staff = false, superuser = false. -/
def create_user (username email password : String) (s : UserState) :
    Except String (CustomUser × UserState) :=
  if usernameTaken username s then Except.error "ValidationError"
  else
    let u : CustomUser :=
      { id := freshUserId s, username := username, email := email, password := password,
        first_name := "", last_name := "", is_active := true, is_staff := false,
        is_superuser := false, bio := none, profile_image := none, x_link := none,
        linkedin_link := none, github_link := none, website_link := none }
    Except.ok (u, s ++ [u])

/-- Modelled from the spec: `createSuperuser` — identical to `createUser` but
sets staff = true, superuser = true, active = true (spec section 4.1 and
accounts/tests.py `test_create_superuser`). -/
def create_superuser (username email password : String) (s : UserState) :
    Except String (CustomUser × UserState) :=
  if usernameTaken username s then Except.error "ValidationError"
  else
    let u : CustomUser :=
      { id := freshUserId s, username := username, email := email, password := password,
        first_name := "", last_name := "", is_active := true, is_staff := true,
        is_superuser := true, bio := none, profile_image := none, x_link := none,
        linkedin_link := none, github_link := none, website_link := none }
    Except.ok (u, s ++ [u])

/-- Whether a fallible store operation succeeded. -/
def exceptOk {α : Type} : Except String α → Bool
  | Except.ok _ => true
  | Except.error _ => false

/-- C2: with a unique username, `create_user` succeeds, and any user it
returns has active = true, staff = false, superuser = false with stored
username and email equal to the inputs (and the user is stored);
`create_superuser` likewise succeeds and returns a user with active = true,
staff = true, superuser = true. -/
theorem create_user_flags :
    (∀ (un em pw : String) (s : UserState), usernameTaken un s = false →
      exceptOk (create_user un em pw s) = true) ∧
    (∀ (un em pw : String) (s : UserState) (u : CustomUser) (s2 : UserState),
      create_user un em pw s = Except.ok (u, s2) →
      u.username = un ∧ u.email = em ∧ u.is_active = true ∧
      u.is_staff = false ∧ u.is_superuser = false ∧ u ∈ s2) ∧
    (∀ (un em pw : String) (s : UserState), usernameTaken un s = false →
      exceptOk (create_superuser un em pw s) = true) ∧
    (∀ (un em pw : String) (s : UserState) (u : CustomUser) (s2 : UserState),
      create_superuser un em pw s = Except.ok (u, s2) →
      u.username = un ∧ u.email = em ∧ u.is_active = true ∧
      u.is_staff = true ∧ u.is_superuser = true ∧ u ∈ s2) := by
  refine ⟨?_, ?_, ?_, ?_⟩
  · intro un em pw s h
    unfold create_user
    rw [if_neg (by simp [h])]
    rfl
  · intro un em pw s u s2 h
    unfold create_user at h
    split at h
    · simp at h
    · rw [Except.ok.injEq, Prod.mk.injEq] at h
      obtain ⟨rfl, rfl⟩ := h
      exact ⟨rfl, rfl, rfl, rfl, rfl,
        List.mem_append.mpr (Or.inr (List.mem_singleton.mpr rfl))⟩
  · intro un em pw s h
    unfold create_superuser
    rw [if_neg (by simp [h])]
    rfl
  · intro un em pw s u s2 h
    unfold create_superuser at h
    split at h
    · simp at h
    · rw [Except.ok.injEq, Prod.mk.injEq] at h
      obtain ⟨rfl, rfl⟩ := h
      exact ⟨rfl, rfl, rfl, rfl, rfl,
        List.mem_append.mpr (Or.inr (List.mem_singleton.mpr rfl))⟩

/-- Witness for C2: creating "testuser" in an empty store. -/
theorem create_user_flags_witness :
    exceptOk (create_user "testuser" "testuser@gmail.com" "testpass1234" []) = true ∧
    ((⟨1, "testuser", "testuser@gmail.com", "testpass1234", "", "", true, false, false,
        none, none, none, none, none, none⟩ : CustomUser).username = "testuser" ∧
     (⟨1, "testuser", "testuser@gmail.com", "testpass1234", "", "", true, false, false,
        none, none, none, none, none, none⟩ : CustomUser).email = "testuser@gmail.com" ∧
     (⟨1, "testuser", "testuser@gmail.com", "testpass1234", "", "", true, false, false,
        none, none, none, none, none, none⟩ : CustomUser).is_active = true ∧
     (⟨1, "testuser", "testuser@gmail.com", "testpass1234", "", "", true, false, false,
        none, none, none, none, none, none⟩ : CustomUser).is_staff = false ∧
     (⟨1, "testuser", "testuser@gmail.com", "testpass1234", "", "", true, false, false,
        none, none, none, none, none, none⟩ : CustomUser).is_superuser = false ∧
     (⟨1, "testuser", "testuser@gmail.com", "testpass1234", "", "", true, false, false,
        none, none, none, none, none, none⟩ : CustomUser) ∈
       ([⟨1, "testuser", "testuser@gmail.com", "testpass1234", "", "", true, false, false,
          none, none, none, none, none, none⟩] : UserState)) ∧
    exceptOk (create_superuser "testsuperuser" "testsuperuser@gmail.com" "testpass1234" [])
      = true :=
  ⟨create_user_flags.1 "testuser" "testuser@gmail.com" "testpass1234" [] (by decide),
   create_user_flags.2.1 "testuser" "testuser@gmail.com" "testpass1234" [] _ _ (by rfl),
   create_user_flags.2.2.1 "testsuperuser" "testsuperuser@gmail.com" "testpass1234" []
     (by decide)⟩

/-- The `Meta.fields` tuple of `CustomUserChangeForm` (accounts/forms.py):
the exact field set accepted by the self-service profile-edit path
(`EditProfileView.form_class`, accounts/views.py). -/
def customUserChangeFormFields : List String :=
  ["first_name", "last_name", "username", "email", "bio", "profile_image",
   "x_link", "linkedin_link", "github_link", "website_link"]

/-- The field set the claim attributes to `updateProfile` (spec section 4.1:
firstName, lastName, email, bio, age, profileImage and the social links),
in the model's naming. -/
def claimedUpdateProfileFields : List String :=
  ["first_name", "last_name", "email", "bio", "age", "profile_image",
   "x_link", "linkedin_link", "github_link", "website_link"]

/-- A partial update over exactly the fields of `customUserChangeFormFields`:
each field independently present (applied) or absent (left unchanged). -/
structure ProfilePatch where
  first_name : Option String
  last_name : Option String
  username : Option String
  email : Option String
  bio : Option (Option String)
  profile_image : Option (Option String)
  x_link : Option (Option String)
  linkedin_link : Option (Option String)
  github_link : Option (Option String)
  website_link : Option (Option String)
deriving Repr, DecidableEq

/-- Modelled from the spec: partial-update application for the profile-edit
path (`EditProfileView` + `CustomUserChangeForm`); the patchable fields are
exactly `customUserChangeFormFields` (accounts/forms.py), every other field
of the user is untouched. -/
def applyPatch (p : ProfilePatch) (u : CustomUser) : CustomUser :=
  { u with
    first_name := p.first_name.getD u.first_name,
    last_name := p.last_name.getD u.last_name,
    username := p.username.getD u.username,
    email := p.email.getD u.email,
    bio := p.bio.getD u.bio,
    profile_image := p.profile_image.getD u.profile_image,
    x_link := p.x_link.getD u.x_link,
    linkedin_link := p.linkedin_link.getD u.linkedin_link,
    github_link := p.github_link.getD u.github_link,
    website_link := p.website_link.getD u.website_link }

/-- Modelled from the spec: `updateProfile(userId, fields)` — applies the
patch to the user with the given id, fails with NotFoundError when the id
does not exist. -/
def updateProfile (uid : Nat) (p : ProfilePatch) (s : UserState) :
    Except String UserState :=
  if s.any (fun u => u.id == uid) then
    Except.ok (s.map (fun u => if u.id == uid then applyPatch p u else u))
  else Except.error "NotFoundError"

/-- C6 counterexample: the claim's field set is wrong for this code — the
change form used by the profile-edit path has no `age` field ("age" is in the
claimed set but not in `customUserChangeFormFields`), and it does accept
`username`, which the claimed set omits. -/
theorem updateProfile_fields_counterexample :
    ("age" ∈ claimedUpdateProfileFields ∧ "age" ∉ customUserChangeFormFields) ∧
    ("username" ∈ customUserChangeFormFields ∧ "username" ∉ claimedUpdateProfileFields) := by
  decide

/-- C6 (amended): the profile-edit form accepts exactly first_name,
last_name, username, email, bio, profile_image and the four social links —
no age field, and neither is_staff nor is_superuser; `applyPatch` changes
only supplied fields: every omitted field keeps its value, every supplied
field takes the supplied value, and id, password, is_active, is_staff and
is_superuser are never changed. -/
theorem updateProfile_partial_update (p : ProfilePatch) (u : CustomUser) :
    ((applyPatch p u).id = u.id ∧ (applyPatch p u).password = u.password ∧
     (applyPatch p u).is_active = u.is_active ∧ (applyPatch p u).is_staff = u.is_staff ∧
     (applyPatch p u).is_superuser = u.is_superuser) ∧
    ("age" ∉ customUserChangeFormFields ∧ "is_staff" ∉ customUserChangeFormFields ∧
     "is_superuser" ∉ customUserChangeFormFields ∧ "username" ∈ customUserChangeFormFields) ∧
    (p.first_name = none → (applyPatch p u).first_name = u.first_name) ∧
    (p.last_name = none → (applyPatch p u).last_name = u.last_name) ∧
    (p.username = none → (applyPatch p u).username = u.username) ∧
    (p.email = none → (applyPatch p u).email = u.email) ∧
    (p.bio = none → (applyPatch p u).bio = u.bio) ∧
    (p.profile_image = none → (applyPatch p u).profile_image = u.profile_image) ∧
    (p.x_link = none → (applyPatch p u).x_link = u.x_link) ∧
    (p.linkedin_link = none → (applyPatch p u).linkedin_link = u.linkedin_link) ∧
    (p.github_link = none → (applyPatch p u).github_link = u.github_link) ∧
    (p.website_link = none → (applyPatch p u).website_link = u.website_link) ∧
    (∀ v, p.first_name = some v → (applyPatch p u).first_name = v) ∧
    (∀ v, p.last_name = some v → (applyPatch p u).last_name = v) ∧
    (∀ v, p.username = some v → (applyPatch p u).username = v) ∧
    (∀ v, p.email = some v → (applyPatch p u).email = v) ∧
    (∀ v, p.bio = some v → (applyPatch p u).bio = v) ∧
    (∀ v, p.profile_image = some v → (applyPatch p u).profile_image = v) ∧
    (∀ v, p.x_link = some v → (applyPatch p u).x_link = v) ∧
    (∀ v, p.linkedin_link = some v → (applyPatch p u).linkedin_link = v) ∧
    (∀ v, p.github_link = some v → (applyPatch p u).github_link = v) ∧
    (∀ v, p.website_link = some v → (applyPatch p u).website_link = v) := by
  refine ⟨⟨rfl, rfl, rfl, rfl, rfl⟩, by decide, ?_, ?_, ?_, ?_, ?_, ?_, ?_, ?_, ?_, ?_,
          ?_, ?_, ?_, ?_, ?_, ?_, ?_, ?_, ?_, ?_⟩
  all_goals
    first
    | (intro h; simp [applyPatch, h])
    | (intro v h; simp [applyPatch, h])

/-- Witness for C6 (amended): a patch that supplies only first_name, applied
to a concrete user, changes first_name and nothing else. -/
theorem updateProfile_partial_update_witness :
    (applyPatch ⟨some "A", none, none, none, none, none, none, none, none, none⟩
      ⟨1, "u", "e", "pw", "f", "l", true, false, false, none, none, none, none, none, none⟩).first_name
      = "A" ∧
    (applyPatch ⟨some "A", none, none, none, none, none, none, none, none, none⟩
      ⟨1, "u", "e", "pw", "f", "l", true, false, false, none, none, none, none, none, none⟩).username
      = "u" ∧
    (applyPatch ⟨some "A", none, none, none, none, none, none, none, none, none⟩
      ⟨1, "u", "e", "pw", "f", "l", true, false, false, none, none, none, none, none, none⟩).is_staff
      = false := by
  refine ⟨?_, ?_, ?_⟩
  · exact (updateProfile_partial_update
      ⟨some "A", none, none, none, none, none, none, none, none, none⟩
      ⟨1, "u", "e", "pw", "f", "l", true, false, false, none, none, none, none, none, none⟩).2.2.2.2.2.2.2.2.2.2.2.2.1
      "A" rfl
  · exact (updateProfile_partial_update
      ⟨some "A", none, none, none, none, none, none, none, none, none⟩
      ⟨1, "u", "e", "pw", "f", "l", true, false, false, none, none, none, none, none, none⟩).2.2.2.2.1
      rfl
  · exact (updateProfile_partial_update
      ⟨some "A", none, none, none, none, none, none, none, none, none⟩
      ⟨1, "u", "e", "pw", "f", "l", true, false, false, none, none, none, none, none, none⟩).1.2.2.2.1

/-! ## Content Store (articles app)

`Article` fields per spec section 3 (`articles/models.py` is not in the
sources): title, body, required author reference, optional category
reference, creation date set once. -/

structure Article where
  id : Nat
  title : String
  body : String
  author : Nat
  category : Option Nat
  date : Nat
deriving Repr, DecidableEq

/-- The persistent state of the Content Store: all stored articles. -/
abbrev ArticleState := List Article

/-- Newest-first ordering on articles: `a` precedes `b` when `a` was created
no earlier than `b` (the order of `order_by("-date")`). -/
def dateGe (a b : Article) : Prop := b.date ≤ a.date

instance : DecidableRel dateGe := fun a b => Nat.decLe b.date a.date

instance : IsTotal Article dateGe := ⟨fun a b => Or.symm (Nat.le_total a.date b.date)⟩

instance : IsTrans Article dateGe := ⟨fun _ _ _ h1 h2 => Nat.le_trans h2 h1⟩

/-- Modelled from the spec: `listArticles` with the default sort —
`ArticleListView` (articles/views.py) lists the model's default queryset and
the Article model (absent from the sources) orders newest-first by creation
date per spec section 4.2. -/
def listArticles (s : ArticleState) : List Article :=
  List.insertionSort dateGe s

/-- `ProfileView.get_context_data` (accounts/views.py):
`self.object.article_set.all().order_by("-date")` — the articles whose
author is the profile user, newest first. -/
def listArticlesByAuthor (uid : Nat) (s : ArticleState) : List Article :=
  List.insertionSort dateGe (s.filter (fun a => a.author == uid))

/-- The `fields` list of `ArticleUpdateView` (articles/views.py). -/
def articleUpdateViewFields : List String := ["title", "body"]

/-- The `fields` list of `ArticleCreateView` (articles/views.py). -/
def articleCreateViewFields : List String := ["title", "author", "body"]

/-- The creation-field set the claim asserts: title, body, author and an
optional category. -/
def claimedCreateArticleFields : List String := ["title", "author", "body", "category"]

/-- A partial update over exactly the fields of `articleUpdateViewFields`. -/
structure ArticlePatch where
  title : Option String
  body : Option String
deriving Repr, DecidableEq

/-- `ArticleUpdateView` (articles/views.py): edits exactly title and body of
the article with the given id; a non-existent id is a NotFoundError (the
generic update view's missing-object behaviour, spec section 4.2). -/
def updateArticle (aid : Nat) (p : ArticlePatch) (s : ArticleState) :
    Except String ArticleState :=
  if s.any (fun a => a.id == aid) then
    Except.ok (s.map (fun a =>
      if a.id == aid then
        { a with title := p.title.getD a.title, body := p.body.getD a.body }
      else a))
  else Except.error "NotFoundError"

/-- Fresh id for a newly created article. -/
def freshArticleId (s : ArticleState) : Nat := s.length + 1

/-- Modelled from the spec: article creation — `ArticleCreateView`
(articles/views.py) accepts exactly title, author and body (the author chosen
explicitly, not taken from the session); validation per spec section 4.2:
empty title/body is a ValidationError, an absent author a NotFoundError. The
created article's category is the model default (none): the creation form has
no category field. -/
def createArticle (title body : String) (authorId : Nat) (now : Nat)
    (users : UserState) (s : ArticleState) : Except String (Article × ArticleState) :=
  if title = "" ∨ body = "" then Except.error "ValidationError"
  else if users.any (fun u => u.id == authorId) then
    let a : Article :=
      { id := freshArticleId s, title := title, body := body,
        author := authorId, category := none, date := now }
    Except.ok (a, s ++ [a])
  else Except.error "NotFoundError"

/-- The fields of an article other than title and body: the ones
`updateArticle` must not touch. -/
def articleMeta (a : Article) : Nat × Nat × Option Nat × Nat :=
  (a.id, a.author, a.category, a.date)

theorem articleMeta_if (aid : Nat) (p : ArticlePatch) (a : Article) :
    articleMeta (if a.id == aid then
        { a with title := p.title.getD a.title, body := p.body.getD a.body }
      else a) = articleMeta a := by
  split <;> rfl

theorem map_articleMeta_map (f : Article → Article)
    (hf : ∀ a, articleMeta (f a) = articleMeta a) :
    ∀ s : ArticleState, (s.map f).map articleMeta = s.map articleMeta := by
  intro s
  induction s with
  | nil => rfl
  | cons a t ih => simp [hf, ih]

/-- C3: `listArticles` with the default sort returns all stored articles (a
permutation of the store, hence finite) ordered newest-first by creation
date. -/
theorem listArticles_newest_first (s : ArticleState) :
    List.Perm (listArticles s) s ∧ List.Sorted dateGe (listArticles s) :=
  ⟨List.perm_insertionSort dateGe s, List.sorted_insertionSort dateGe s⟩

/-- C8: `listArticlesByAuthor` returns exactly the articles whose author is
the given user (a permutation of that subset, with membership exactly
characterised), in non-increasing creation-date order. -/
theorem listArticlesByAuthor_spec (uid : Nat) (s : ArticleState) :
    List.Perm (listArticlesByAuthor uid s) (s.filter (fun a => a.author == uid)) ∧
    ((listArticlesByAuthor uid s).all (fun a => a.author == uid)) = true ∧
    List.Sorted dateGe (listArticlesByAuthor uid s) ∧
    (∀ a, a ∈ listArticlesByAuthor uid s ↔ (a ∈ s ∧ a.author = uid)) := by
  refine ⟨List.perm_insertionSort dateGe _, ?_, List.sorted_insertionSort dateGe _, ?_⟩
  · rw [List.all_eq_true]
    intro a ha
    exact (List.mem_filter.mp ((List.mem_insertionSort dateGe).mp ha)).2
  · intro a
    rw [listArticlesByAuthor, List.mem_insertionSort, List.mem_filter, beq_iff_eq]

/-- C7: `updateArticle` can change only title and body — on success the id,
author, category and creation date of every stored article are unchanged (and
the store keeps the same articles positionally); with a non-existent id it
fails with NotFoundError; and the update form's field list is exactly
title and body. -/
theorem updateArticle_frame :
    (∀ (aid : Nat) (p : ArticlePatch) (s s2 : ArticleState),
      updateArticle aid p s = Except.ok s2 →
      s2.map articleMeta = s.map articleMeta) ∧
    (∀ (aid : Nat) (p : ArticlePatch) (s : ArticleState),
      s.any (fun a => a.id == aid) = false →
      updateArticle aid p s = Except.error "NotFoundError") ∧
    ("title" ∈ articleUpdateViewFields ∧ "body" ∈ articleUpdateViewFields ∧
     "author" ∉ articleUpdateViewFields ∧ "category" ∉ articleUpdateViewFields ∧
     "date" ∉ articleUpdateViewFields) := by
  refine ⟨?_, ?_, by decide⟩
  · intro aid p s s2 h
    unfold updateArticle at h
    split at h
    · obtain rfl := Except.ok.inj h
      exact map_articleMeta_map _ (articleMeta_if aid p) s
    · simp at h
  · intro aid p s h
    unfold updateArticle
    rw [if_neg (by simp [h])]

/-- Witness for C7 at a concrete store: editing article 1's title keeps its
metadata, and updating in an empty store is a NotFoundError. -/
theorem updateArticle_frame_witness :
    ([⟨1, "t2", "b", 7, none, 3⟩] : ArticleState).map articleMeta
      = ([⟨1, "t", "b", 7, none, 3⟩] : ArticleState).map articleMeta ∧
    updateArticle 1 ⟨some "t2", none⟩ [] = Except.error "NotFoundError" :=
  ⟨updateArticle_frame.1 1 ⟨some "t2", none⟩ [⟨1, "t", "b", 7, none, 3⟩]
      [⟨1, "t2", "b", 7, none, 3⟩] (by rfl),
   updateArticle_frame.2.1 1 ⟨some "t2", none⟩ [] (by decide)⟩

/-- C9 counterexample: the claim's creation-field set is wrong for this code —
`ArticleCreateView.fields` (articles/views.py) has no category field, so an
(optional) category cannot be supplied at creation. -/
theorem createArticle_fields_counterexample :
    "category" ∈ claimedCreateArticleFields ∧
    "category" ∉ articleCreateViewFields ∧
    (createArticle "t" "b" 1 0
        [⟨1, "u", "e", "pw", "", "", true, false, false, none, none, none, none, none, none⟩]
        []).map (fun r => r.1.category) = Except.ok none := by
  refine ⟨by decide, by decide, by rfl⟩

/-- C9 (amended): article creation takes exactly title, body and a required
explicitly-chosen author (an explicit parameter, not read from any session
state) and no category — the created article's category is the model default
none; it fails with ValidationError when title or body is empty and with
NotFoundError when the referenced author does not exist; on success the
article is stored with exactly the given title, body and author. -/
theorem createArticle_spec :
    ("title" ∈ articleCreateViewFields ∧ "author" ∈ articleCreateViewFields ∧
     "body" ∈ articleCreateViewFields ∧ "category" ∉ articleCreateViewFields) ∧
    (∀ (t b : String) (aid now : Nat) (users : UserState) (s : ArticleState),
      t = "" ∨ b = "" →
      createArticle t b aid now users s = Except.error "ValidationError") ∧
    (∀ (t b : String) (aid now : Nat) (users : UserState) (s : ArticleState),
      ¬(t = "" ∨ b = "") → users.any (fun u => u.id == aid) = false →
      createArticle t b aid now users s = Except.error "NotFoundError") ∧
    (∀ (t b : String) (aid now : Nat) (users : UserState) (s : ArticleState)
       (a : Article) (s2 : ArticleState),
      createArticle t b aid now users s = Except.ok (a, s2) →
      a.title = t ∧ a.body = b ∧ a.author = aid ∧ a.category = none ∧ a ∈ s2) := by
  refine ⟨by decide, ?_, ?_, ?_⟩
  · intro t b aid now users s h
    unfold createArticle
    rw [if_pos h]
  · intro t b aid now users s h1 h2
    unfold createArticle
    rw [if_neg h1, if_neg (by simp [h2])]
  · intro t b aid now users s a s2 h
    unfold createArticle at h
    split at h
    · simp at h
    · split at h
      · rw [Except.ok.injEq, Prod.mk.injEq] at h
        obtain ⟨rfl, rfl⟩ := h
        exact ⟨rfl, rfl, rfl, rfl,
          List.mem_append.mpr (Or.inr (List.mem_singleton.mpr rfl))⟩
      · simp at h

/-- Witness for C9 (amended) at concrete inputs: empty body is rejected, an
unknown author is rejected, and a successful creation stores the article. -/
theorem createArticle_spec_witness :
    createArticle "t" "" 1 0 [] [] = Except.error "ValidationError" ∧
    createArticle "t" "b" 2 0 [] [] = Except.error "NotFoundError" ∧
    ((⟨1, "t", "b", 1, none, 0⟩ : Article).title = "t" ∧
     (⟨1, "t", "b", 1, none, 0⟩ : Article).body = "b" ∧
     (⟨1, "t", "b", 1, none, 0⟩ : Article).author = 1 ∧
     (⟨1, "t", "b", 1, none, 0⟩ : Article).category = none ∧
     (⟨1, "t", "b", 1, none, 0⟩ : Article) ∈ ([⟨1, "t", "b", 1, none, 0⟩] : ArticleState)) :=
  ⟨createArticle_spec.2.1 "t" "" 1 0 [] [] (Or.inr rfl),
   createArticle_spec.2.2.1 "t" "b" 2 0 [] [] (by decide) (by decide),
   createArticle_spec.2.2.2 "t" "b" 1 0
     [⟨1, "u", "e", "pw", "", "", true, false, false, none, none, none, none, none, none⟩]
     [] ⟨1, "t", "b", 1, none, 0⟩ [⟨1, "t", "b", 1, none, 0⟩] (by rfl)⟩

end News
